import Mathlib

/-!
Verification development for the gifdex tap-channel ingestion pipeline.

Shallow embedding of:
* `crates/floodgate/src/channel.rs` — channel configuration builder,
  connection establishment (scheme rewriting, handshake status check),
  the event dispatcher loop (`ChannelConnectionHandle::handler`) and the
  acknowledgment writer task (`ChannelConnectionHandle::writer_task`);
* `crates/gifdex-ingest/src/main.rs` — the reconnection supervisor loop;
* `crates/lesgif-ingest/src/main.rs` — the hand-rolled tap consumer
  (`consume_tap`) and its supervisor (`run_tap_consumer`).

External library calls (JSON deserialization of inbound events, the
handler's side effects, transport sends) are modelled as oracle function
parameters; machine integers (`u64` event ids, `usize` limits) are
modelled as `Nat` — none of the embedded code performs arithmetic on
them, so overflow is not in play.
-/

namespace Gifdex

/-! ## URLs and the channel configuration builder (`channel.rs`) -/

/-- Model of a parsed `url::Url`: the channel code only inspects and
rewrites the scheme and the path, so only those components are kept. -/
structure UrlM where
  scheme : String
  path : String
deriving DecidableEq

/-- Errors of `ChannelBuilder::build` (`ChannelBuildError` in `channel.rs`). -/
inductive ChannelBuildErrorM where
  | invalidUrlScheme (scheme : String)
  | invalidPassword
deriving DecidableEq

/-- The validated channel configuration (`Channel` in `channel.rs`). -/
structure ChannelM where
  base_url : UrlM
  auth_header : Option String
  max_concurrent : Nat
deriving DecidableEq

/-- The channel configuration builder (`ChannelBuilder` in `channel.rs`). -/
structure ChannelBuilderM where
  base_url : UrlM
  password : Option String
  max_concurrent : Nat
deriving DecidableEq

/-- Translation of `ChannelBuilder::new`: default concurrency limit 100. -/
def channelBuilderNew (base_url : UrlM) : ChannelBuilderM :=
  { base_url := base_url, password := none, max_concurrent := 100 }

/-- Translation of the scheme validation in `ChannelBuilder::build`:
`matches!(self.base_url.scheme(), "http" | "https" | "ws" | "wss")`. -/
def schemeSupported (s : String) : Bool :=
  s == "http" || s == "https" || s == "ws" || s == "wss"

/-- Translation of `ChannelBuilder::build`.  The credential encoding
(base64 of `admin:<password>` wrapped in `Basic `, then parsed into a
`HeaderValue`) is abstracted by the oracle `encodeAuth`; `none` models a
`HeaderValue` parse failure, which the source maps to
`ChannelBuildError::InvalidPassword`. -/
def channelBuild (encodeAuth : String → Option String) (b : ChannelBuilderM) :
    Except ChannelBuildErrorM ChannelM :=
  if !schemeSupported b.base_url.scheme then
    .error (.invalidUrlScheme b.base_url.scheme)
  else
    match b.password with
    | none =>
        .ok { base_url := b.base_url, auth_header := none,
              max_concurrent := b.max_concurrent }
    | some pw =>
        match encodeAuth pw with
        | none => .error .invalidPassword
        | some h =>
            .ok { base_url := b.base_url, auth_header := some h,
                  max_concurrent := b.max_concurrent }

/-- Translation of the URL construction at the top of
`ChannelConnectionHandle::connect`: rewrite `http`→`ws`, `https`→`wss`,
keep `ws`/`wss`, then force the path to `/channel`.  Any other scheme
hits the `panic!` branch there, modelled as `none` (the builder's scheme
check makes that branch unreachable from a built configuration). -/
def websocketUrl (base : UrlM) : Option UrlM :=
  match base.scheme with
  | "http" => some { base with scheme := "ws", path := "/channel" }
  | "https" => some { base with scheme := "wss", path := "/channel" }
  | "ws" => some { base with path := "/channel" }
  | "wss" => some { base with path := "/channel" }
  | _ => none

/-! ## Handshake response validation (`channel.rs`, `connect`) -/

/-- Translation of `http::StatusCode::is_success`: `200 ≤ s < 300`. -/
def statusIsSuccess (status : Nat) : Bool :=
  200 ≤ status && status < 300

/-- Outcome of the post-handshake status check in `connect`: either the
function proceeds to build the `ChannelConnectionHandle`, or it returns
`ConnectionError::WebSocketHttpResponseFailure(response)`; the model
carries the response's status as the diagnostic payload. -/
inductive ConnectCheckResult where
  | handle
  | httpResponseFailure (responseStatus : Nat)
deriving DecidableEq

/-- Translation of the status check in `ChannelConnectionHandle::connect`:
`if response.status().as_u16() != 101 && !response.status().is_success()`. -/
def connectResponseCheck (status : Nat) : ConnectCheckResult :=
  if status != 101 && !statusIsSuccess status then
    .httpResponseFailure status
  else
    .handle

/-! ## Inbound events and the per-event handler task (`channel.rs`, `handler`) -/

/-- Modelled from the spec: floodgate's `api::Event` lives in a module
that is not under `src/`.  Per the spec's data model, an inbound event
carries a numeric identifier used for acknowledgment and a payload that
is handed to the handler; the payload is kept abstract as a `String`. -/
structure Ev where
  id : Nat
  data : String
deriving DecidableEq

/-- Ack decision of the handler task spawned per text frame in
`ChannelConnectionHandle::handler` (lines 129–147): parse the payload
(`serde_json::from_str::<Event>`, modelled by the oracle `parse`); on
parse failure log and return without acknowledging; otherwise run the
handler on `event.data` (oracle `handlerOk`, `true` = `Ok(())`) and
acknowledge `event.id` exactly on success.  `some id` means the task
submits `id` to the ack writer; `none` means it submits nothing. -/
def handlerTaskAck (parse : String → Option Ev) (handlerOk : String → Bool)
    (text : String) : Option Nat :=
  match parse text with
  | none => none
  | some e => if handlerOk e.data then some e.id else none

/-! ## Inbound frames -/

/-- Inbound websocket frames as the dispatcher distinguishes them:
`Message::Text`, `Message::Close`, the `Ok(_)` catch-all for any other
frame kind, and a transport-level read error (`Err` from the stream). -/
inductive Frame where
  | text (payload : String)
  | close
  | otherKind
  | readError
deriving DecidableEq

/-- Payloads the dispatcher loop actually spawns handler tasks for, in
arrival order: text frames up to (not including) the first close frame
or read error, which break the loop. -/
def dispatchedPayloads : List Frame → List String
  | [] => []
  | .text p :: rest => p :: dispatchedPayloads rest
  | .close :: _ => []
  | .otherKind :: rest => dispatchedPayloads rest
  | .readError :: _ => []

/-- Event identifiers submitted to the ack writer over a whole
connection, listed in event arrival order (one possible completion
schedule; task completion order is not fixed by the code). -/
def enqueuedAcks (parse : String → Option Ev) (handlerOk : String → Bool)
    (frames : List Frame) : List Nat :=
  (dispatchedPayloads frames).filterMap (handlerTaskAck parse handlerOk)

/-! ## The acknowledgment writer task (`channel.rs`, `writer_task`) -/

/-- Wire text of one acknowledgment frame, as serde serializes the `Ack`
struct in `writer_task`: a `type` tag and the event id. -/
def ackJson (id : Nat) : String :=
  "\x7b\"type\":\"ack\",\"id\":" ++ toString id ++ "\x7d"

/-- Serialization of the `Ack` struct (`serde_json::to_string`); on this
struct serialization always succeeds, producing `ackJson`. -/
def ackSerialize (id : Nat) : Option String :=
  some (ackJson id)

/-- Translation of `ChannelConnectionHandle::writer_task` run over the
queue of submitted ids: for each id, serialize (oracle `ser`; `none` is
the `Err` branch of `serde_json::to_string` — log, `continue`); then
send (oracle `send`; `false` is the `Err` branch of `write.send` — log,
`break`).  Returns the frames that reached the wire, each paired with
the id it acknowledges (the pairing is bookkeeping; the wire carries
only the string). -/
def writerRun (ser : Nat → Option String) (send : String → Bool) :
    List Nat → List (Nat × String)
  | [] => []
  | id :: rest =>
    match ser id with
    | none => writerRun ser send rest
    | some json =>
        if send json then (id, json) :: writerRun ser send rest else []

/-- End-to-end acknowledgment pipeline on one connection: the dispatcher
enqueues ids per `handlerTaskAck`, and the writer drains the queue with
the real serializer `ackSerialize`. -/
def wireAcks (parse : String → Option Ev) (handlerOk : String → Bool)
    (send : String → Bool) (frames : List Frame) : List (Nat × String) :=
  writerRun ackSerialize send (enqueuedAcks parse handlerOk frames)

/-! ## The dispatcher loop as a small-step machine (`channel.rs`, `handler`)

The loop in `ChannelConnectionHandle::handler` interleaves with the
spawned handler tasks, so it is modelled as a labelled-free transition
relation: the dispatcher's control point advances through the loop while
any in-flight task may complete at any step. -/

/-- Control point of the dispatcher inside `handler`: at the top of the
loop (including the non-blocking `try_join_next` reaping), holding a
freshly acquired permit while awaiting `read.next()`, draining the
`JoinSet` after the loop broke, or returned. -/
inductive DPhase where
  | looping
  | reading
  | draining
  | returned
deriving DecidableEq

/-- State of one connection's dispatch loop: `avail` is the semaphore's
available-permit count, `running` the payloads of in-flight handler
tasks (each holds one permit), `inbox` the frames not yet read from the
transport, `acks` the ids successfully submitted to the ack writer,
`wAlive` whether the writer task still holds its receiver, and
`spawned`/`completed` count handler tasks over the connection lifetime. -/
structure DState where
  avail : Nat
  running : List String
  inbox : List Frame
  acks : List Nat
  wAlive : Bool
  spawned : Nat
  completed : Nat
  phase : DPhase
deriving DecidableEq

/-- Effect of one handler task running to completion (the spawned block
at `channel.rs` lines 129–147): the ack decision is `handlerTaskAck`;
submitting on the unbounded channel (`ack_tx.send`) appends the id when
the writer's receiver is alive and fails (logged only) otherwise; in
either case the task ends by dropping its permit. -/
def finishTask (parse : String → Option Ev) (handlerOk : String → Bool)
    (s : DState) (p : String) : DState :=
  { s with
    running := s.running.erase p,
    avail := s.avail + 1,
    completed := s.completed + 1,
    acks :=
      match handlerTaskAck parse handlerOk p with
      | some id => if s.wAlive then s.acks ++ [id] else s.acks
      | none => s.acks }

/-- One step of the dispatcher/tasks system, translated from the loop of
`ChannelConnectionHandle::handler`: acquire a permit before reading; a
text frame spawns a task that takes the permit along; a close frame or a
read error drops the permit and breaks; any other frame kind drops the
permit and continues; stream end drops the permit and breaks; a running
task may finish at any time; the writer task may stop (dropping the ack
receiver) at any time; after the loop, `join_next` drains the task set
and `handler` returns once it is empty. -/
inductive DStep (parse : String → Option Ev) (handlerOk : String → Bool) :
    DState → DState → Prop where
  | acquire (s : DState) (a : Nat) :
      s.phase = .looping → s.avail = a + 1 →
      DStep parse handlerOk s { s with avail := a, phase := .reading }
  | readText (s : DState) (p : String) (rest : List Frame) :
      s.phase = .reading → s.inbox = .text p :: rest →
      DStep parse handlerOk s
        { s with running := p :: s.running, inbox := rest,
                 spawned := s.spawned + 1, phase := .looping }
  | readClose (s : DState) (rest : List Frame) :
      s.phase = .reading → s.inbox = .close :: rest →
      DStep parse handlerOk s
        { s with avail := s.avail + 1, inbox := rest, phase := .draining }
  | readOther (s : DState) (rest : List Frame) :
      s.phase = .reading → s.inbox = .otherKind :: rest →
      DStep parse handlerOk s
        { s with avail := s.avail + 1, inbox := rest, phase := .looping }
  | readErr (s : DState) (rest : List Frame) :
      s.phase = .reading → s.inbox = .readError :: rest →
      DStep parse handlerOk s
        { s with avail := s.avail + 1, inbox := rest, phase := .draining }
  | readEnd (s : DState) :
      s.phase = .reading → s.inbox = [] →
      DStep parse handlerOk s
        { s with avail := s.avail + 1, phase := .draining }
  | taskFinish (s : DState) (p : String) :
      p ∈ s.running →
      DStep parse handlerOk s (finishTask parse handlerOk s p)
  | writerStop (s : DState) :
      s.wAlive = true →
      DStep parse handlerOk s { s with wAlive := false }
  | drainDone (s : DState) :
      s.phase = .draining → s.running = [] →
      DStep parse handlerOk s { s with phase := .returned }

/-- Initial state of a dispatch loop for a connection built with
concurrency limit `n` (`Semaphore::new(max_concurrent)`) whose transport
will deliver `frames`. -/
def initState (n : Nat) (frames : List Frame) : DState :=
  { avail := n, running := [], inbox := frames, acks := [], wAlive := true,
    spawned := 0, completed := 0, phase := .looping }

/-- States reachable during one connection's dispatch loop. -/
inductive DReach (parse : String → Option Ev) (handlerOk : String → Bool)
    (n : Nat) (frames : List Frame) : DState → Prop where
  | init : DReach parse handlerOk n frames (initState n frames)
  | step {s s' : DState} : DReach parse handlerOk n frames s →
      DStep parse handlerOk s s' → DReach parse handlerOk n frames s'

/-- Number of permits held by the dispatcher itself: one between the
`acquire_owned` and the point where the permit is either moved into a
spawned task or dropped. -/
def readingHeld : DPhase → Nat
  | .reading => 1
  | _ => 0

/-- Inductive invariant of the dispatch loop: permits are conserved
(every permit is either available, held by one in-flight task, or held
by the dispatcher while reading), every spawned task is either running
or completed, and the loop only returns with no task running. -/
def dInv (n : Nat) (s : DState) : Prop :=
  s.avail + s.running.length + readingHeld s.phase = n ∧
  s.spawned = s.completed + s.running.length ∧
  (s.phase = .returned → s.running = [])

/-! ## The lesgif-ingest tap consumer (`lesgif-ingest/src/main.rs`)

`consume_tap` hand-rolls its own websocket loop instead of using the
floodgate channel: it reads a frame, and for a text frame acquires a
permit from a 50-permit semaphore, spawns a task that parses the payload
with `serde_json::from_str(..).unwrap()` and runs `process_event`, then
immediately `.await?`s the join handle before sending the ack itself and
reading the next frame. -/

/-- Modelled from the spec for the payload content only: the parsed
`TapIngestPayload` of `lesgif-ingest` (both variants carry the numeric
event `id`; the rest of the payload is kept abstract, since the embedded
control flow only forwards it to `process_event`). -/
structure TapEvent where
  id : Nat
  payload : String
deriving DecidableEq

/-- How one `consume_tap` invocation ends: `closed` is the `Ok(())` path
(inbound close frame or stream end); `taskPanicked` is the `JoinError`
produced when the spawned task's `unwrap()` panics on an unparsable
payload, propagated by `.await?`; `readErrored` is `msg?` propagating a
transport error; `sendErrored` is `write.send(..).await?` failing. -/
inductive TapEnd where
  | closed
  | taskPanicked (payload : String)
  | readErrored
  | sendErrored
deriving DecidableEq

/-- Wire text of a lesgif acknowledgment frame
(`serde_json::json!({"type": "ack", "id": event_id}).to_string()`;
serde_json's default map orders keys alphabetically, so `id` precedes
`type`). -/
def tapAckJson (id : Nat) : String :=
  "\x7b\"id\":" ++ toString id ++ ",\"type\":\"ack\"\x7d"

/-- Translation of the `while let Some(msg) = read.next().await` loop of
`consume_tap`: per text frame, parse (oracle `parse`; `none` models the
`unwrap` panic, which surfaces as a `JoinError` and aborts the whole
loop via `?`), run `process_event` (oracle `proc` giving `should_ack`),
and send the ack frame before reading the next message (oracle `send`;
`false` aborts via `?`).  Returns the acked ids in order and how the
invocation ended. -/
def consumeTap (parse : String → Option TapEvent) (proc : TapEvent → Bool)
    (send : String → Bool) : List Frame → List Nat × TapEnd
  | [] => ([], .closed)
  | .text t :: rest =>
    match parse t with
    | none => ([], .taskPanicked t)
    | some e =>
      if proc e then
        if send (tapAckJson e.id) then
          let r := consumeTap parse proc send rest
          (e.id :: r.1, r.2)
        else ([], .sendErrored)
      else consumeTap parse proc send rest
  | .close :: _ => ([], .closed)
  | .otherKind :: rest => consumeTap parse proc send rest
  | .readError :: _ => ([], .readErrored)

/-- Control point of `consume_tap`: at the read loop head; awaiting the
join handle of the task spawned for the current text frame; about to
send the ack for `id`; or finished with result `r`. -/
inductive LPhase where
  | readLoop
  | joining
  | sendingAck (id : Nat)
  | finished (r : TapEnd)
deriving DecidableEq

/-- State of one `consume_tap` invocation: `avail` is the 50-permit
semaphore's available count, `running` the payloads of spawned event
tasks not yet joined, `inbox` the unread frames, `acks` the ids whose
ack frames were sent, in sending order. -/
structure LState where
  avail : Nat
  running : List String
  inbox : List Frame
  acks : List Nat
  phase : LPhase
deriving DecidableEq

/-- One step of `consume_tap`, keeping the spawn and the join as separate
transitions so that "at most one task in flight" is a provable property
of the reachable states rather than a shape built into the state type. -/
inductive LStep (parse : String → Option TapEvent) (proc : TapEvent → Bool)
    (send : String → Bool) : LState → LState → Prop where
  | readText (s : LState) (t : String) (rest : List Frame) (a : Nat) :
      s.phase = .readLoop → s.inbox = .text t :: rest → s.avail = a + 1 →
      LStep parse proc send s
        { s with avail := a, running := t :: s.running, inbox := rest,
                 phase := .joining }
  | joinPanic (s : LState) (t : String) (rs : List String) :
      s.phase = .joining → s.running = t :: rs → parse t = none →
      LStep parse proc send s
        { s with avail := s.avail + 1, running := rs,
                 phase := .finished (.taskPanicked t) }
  | joinAck (s : LState) (t : String) (rs : List String) (e : TapEvent) :
      s.phase = .joining → s.running = t :: rs → parse t = some e →
      proc e = true →
      LStep parse proc send s
        { s with avail := s.avail + 1, running := rs,
                 phase := .sendingAck e.id }
  | joinNoAck (s : LState) (t : String) (rs : List String) (e : TapEvent) :
      s.phase = .joining → s.running = t :: rs → parse t = some e →
      proc e = false →
      LStep parse proc send s
        { s with avail := s.avail + 1, running := rs, phase := .readLoop }
  | sendOk (s : LState) (id : Nat) :
      s.phase = .sendingAck id → send (tapAckJson id) = true →
      LStep parse proc send s
        { s with acks := s.acks ++ [id], phase := .readLoop }
  | sendFail (s : LState) (id : Nat) :
      s.phase = .sendingAck id → send (tapAckJson id) = false →
      LStep parse proc send s { s with phase := .finished .sendErrored }
  | readClose (s : LState) (rest : List Frame) :
      s.phase = .readLoop → s.inbox = .close :: rest →
      LStep parse proc send s
        { s with inbox := rest, phase := .finished .closed }
  | readOther (s : LState) (rest : List Frame) :
      s.phase = .readLoop → s.inbox = .otherKind :: rest →
      LStep parse proc send s { s with inbox := rest }
  | readErr (s : LState) (rest : List Frame) :
      s.phase = .readLoop → s.inbox = .readError :: rest →
      LStep parse proc send s
        { s with inbox := rest, phase := .finished .readErrored }
  | readEnd (s : LState) :
      s.phase = .readLoop → s.inbox = [] →
      LStep parse proc send s { s with phase := .finished .closed }

/-- Initial state of `consume_tap` (`Semaphore::new(50)` in the source;
the semaphore size is a parameter here so the statement can name 50). -/
def lInitState (avail0 : Nat) (frames : List Frame) : LState :=
  { avail := avail0, running := [], inbox := frames, acks := [],
    phase := .readLoop }

/-- States reachable during one `consume_tap` invocation. -/
inductive LReach (parse : String → Option TapEvent) (proc : TapEvent → Bool)
    (send : String → Bool) (avail0 : Nat) (frames : List Frame) :
    LState → Prop where
  | init : LReach parse proc send avail0 frames (lInitState avail0 frames)
  | step {s s' : LState} : LReach parse proc send avail0 frames s →
      LStep parse proc send s s' → LReach parse proc send avail0 frames s'

/-- Ack id contributed by one inbound frame, per the `consume_tap` logic:
a text frame acknowledged exactly when it parses and `process_event`
returns `true`. -/
def ackCandidate (parse : String → Option TapEvent) (proc : TapEvent → Bool) :
    Frame → List Nat
  | .text t =>
    match parse t with
    | some e => if proc e then [e.id] else []
    | none => []
  | _ => []

/-- Arrival-ordered ack candidates of a frame sequence. -/
def ackCandidates (parse : String → Option TapEvent) (proc : TapEvent → Bool) :
    List Frame → List Nat
  | [] => []
  | m :: rest => ackCandidate parse proc m ++ ackCandidates parse proc rest

/-- Inductive invariant of `consume_tap`: permits are conserved; the
consumed frames form a prefix of the inbound sequence; a task is in
flight exactly while the loop is between spawn and join; and the acked
ids always form a sublist (an order-preserving selection) of the
arrival-ordered ack candidates of the consumed frames. -/
def lInv (parse : String → Option TapEvent) (proc : TapEvent → Bool)
    (msgs : List Frame) (avail0 : Nat) (s : LState) : Prop :=
  s.avail + s.running.length = avail0 ∧
  ∃ p, msgs = p ++ s.inbox ∧
    (match s.phase with
     | .joining => ∃ t p0, s.running = [t] ∧ p = p0 ++ [Frame.text t] ∧
         s.acks.Sublist (ackCandidates parse proc p0)
     | .sendingAck id => s.running = [] ∧
         (s.acks ++ [id]).Sublist (ackCandidates parse proc p)
     | _ => s.running = [] ∧ s.acks.Sublist (ackCandidates parse proc p))

/-! ## Reconnection supervisors -/

/-- Outcome of one iteration of the gifdex-ingest supervisor loop
(`gifdex-ingest/src/main.rs`, `main`): either `channel.connect()`
returned an error, or the connection succeeded and
`connection.handler(..)` ran to completion (close or transport error). -/
inductive GifdexIterOutcome where
  | connectFailed
  | dispatchCompleted
deriving DecidableEq

/-- Cooldown (in seconds) slept by the gifdex-ingest supervisor after
one iteration: `sleep(Duration::from_secs(5))` after a failed connect,
`sleep(Duration::from_secs(10))` after the dispatcher returns. -/
def gifdexCooldownSecs : GifdexIterOutcome → Nat
  | .connectFailed => 5
  | .dispatchCompleted => 10

/-- Cooldown (in seconds) slept by the lesgif-ingest supervisor
(`run_tap_consumer`) after one `consume_tap` invocation: it logs on
`Ok` and on `Err` and then sleeps `Duration::from_secs(5)` in both
cases. -/
def lesgifCooldownSecs : TapEnd → Nat := fun _ => 5

/-- Sequence of cooldowns of the gifdex-ingest supervisor, given the
outcome of each iteration: the Rust `loop` has no break or return, so
an `n`-th iteration exists for every `n`. -/
def gifdexSupervisorSleeps (outcomes : Nat → GifdexIterOutcome) (n : Nat) : Nat :=
  gifdexCooldownSecs (outcomes n)

/-- Sequence of cooldowns of the lesgif-ingest supervisor, given how
each `consume_tap` invocation ended: its `loop` likewise never breaks. -/
def lesgifSupervisorSleeps (outcomes : Nat → TapEnd) (n : Nat) : Nat :=
  lesgifCooldownSecs (outcomes n)

/-! ## Invariant proofs -/

@[simp]
theorem readingHeld_looping : readingHeld .looping = 0 := rfl

@[simp]
theorem readingHeld_reading : readingHeld .reading = 1 := rfl

@[simp]
theorem readingHeld_draining : readingHeld .draining = 0 := rfl

@[simp]
theorem readingHeld_returned : readingHeld .returned = 0 := rfl

theorem dInv_init (n : Nat) (frames : List Frame) : dInv n (initState n frames) := by
  simp [dInv, initState]

theorem dInv_step {parse : String → Option Ev} {handlerOk : String → Bool}
    {n : Nat} {s s' : DState} (hs : DStep parse handlerOk s s')
    (h : dInv n s) : dInv n s' := by
  obtain ⟨h1, h2, h3⟩ := h
  cases hs with
  | acquire a hp ha =>
      rw [hp] at h1
      refine ⟨?_, h2, by simp⟩
      simp at h1 ⊢
      omega
  | readText p rest hp hi =>
      rw [hp] at h1
      refine ⟨?_, ?_, by simp⟩ <;> simp at h1 ⊢ <;> omega
  | readClose rest hp hi =>
      rw [hp] at h1
      refine ⟨?_, h2, by simp⟩
      simp at h1 ⊢
      omega
  | readOther rest hp hi =>
      rw [hp] at h1
      refine ⟨?_, h2, by simp⟩
      simp at h1 ⊢
      omega
  | readErr rest hp hi =>
      rw [hp] at h1
      refine ⟨?_, h2, by simp⟩
      simp at h1 ⊢
      omega
  | readEnd hp hi =>
      rw [hp] at h1
      refine ⟨?_, h2, by simp⟩
      simp at h1 ⊢
      omega
  | taskFinish p hmem =>
      have hlen : (s.running.erase p).length = s.running.length - 1 :=
        List.length_erase_of_mem hmem
      have hpos : 0 < s.running.length :=
        List.length_pos.mpr (List.ne_nil_of_mem hmem)
      refine ⟨?_, ?_, ?_⟩
      · simp [finishTask, hlen]
        omega
      · simp [finishTask, hlen]
        omega
      · intro hret
        simp only [finishTask] at hret ⊢
        rw [h3 hret] at hmem
        exact absurd hmem (List.not_mem_nil p)
  | writerStop hw =>
      exact ⟨h1, h2, h3⟩
  | drainDone hp hr =>
      rw [hp] at h1
      refine ⟨?_, h2, fun _ => hr⟩
      simp at h1 ⊢
      omega

theorem dInv_reach {parse : String → Option Ev} {handlerOk : String → Bool}
    {n : Nat} {frames : List Frame} {s : DState}
    (h : DReach parse handlerOk n frames s) : dInv n s := by
  induction h with
  | init => exact dInv_init n frames
  | step _ hs ih => exact dInv_step hs ih

theorem ackCandidates_append (parse : String → Option TapEvent)
    (proc : TapEvent → Bool) (l r : List Frame) :
    ackCandidates parse proc (l ++ r) =
      ackCandidates parse proc l ++ ackCandidates parse proc r := by
  induction l with
  | nil => simp [ackCandidates]
  | cons m rest ih => simp [ackCandidates, ih]

theorem lInv_init (parse : String → Option TapEvent) (proc : TapEvent → Bool)
    (msgs : List Frame) (avail0 : Nat) :
    lInv parse proc msgs avail0 (lInitState avail0 msgs) :=
  ⟨by simp [lInitState], [], by simp [lInitState],
   by simp [lInitState], List.nil_sublist _⟩

theorem lInv_step {parse : String → Option TapEvent} {proc : TapEvent → Bool}
    {send : String → Bool} {msgs : List Frame} {avail0 : Nat} {s s' : LState}
    (hs : LStep parse proc send s s') (h : lInv parse proc msgs avail0 s) :
    lInv parse proc msgs avail0 s' := by
  obtain ⟨hA, p, hp, hcl⟩ := h
  cases hs with
  | readText t rest a hph hin ha =>
      rw [hph] at hcl
      obtain ⟨hrun, hsub⟩ := hcl
      refine ⟨?_, p ++ [Frame.text t], by simp [hp, hin], t, p, ?_, rfl, hsub⟩
      · rw [hrun] at hA
        simp at hA
        simp [hrun]
        omega
      · simp [hrun]
  | joinPanic t rs hph hrunning hparse =>
      rw [hph] at hcl
      obtain ⟨t', p0, hrun1, hpeq, hsub⟩ := hcl
      rw [hrunning] at hrun1 hA
      simp at hrun1
      obtain ⟨ht, hrs⟩ := hrun1
      refine ⟨?_, p, hp, ?_, ?_⟩
      · simp [hrs] at hA ⊢
        omega
      · simp [hrs]
      · rw [hpeq, ackCandidates_append]
        exact hsub.trans (List.sublist_append_left _ _)
  | joinAck t rs e hph hrunning hparse hproc =>
      rw [hph] at hcl
      obtain ⟨t', p0, hrun1, hpeq, hsub⟩ := hcl
      rw [hrunning] at hrun1 hA
      simp at hrun1
      obtain ⟨ht, hrs⟩ := hrun1
      subst ht
      refine ⟨?_, p, hp, ?_, ?_⟩
      · simp [hrs] at hA ⊢
        omega
      · simp [hrs]
      · rw [hpeq, ackCandidates_append]
        have hcand : ackCandidates parse proc [Frame.text t] = [e.id] := by
          simp [ackCandidates, ackCandidate, hparse, hproc]
        rw [hcand]
        exact List.Sublist.append hsub (List.Sublist.refl _)
  | joinNoAck t rs e hph hrunning hparse hproc =>
      rw [hph] at hcl
      obtain ⟨t', p0, hrun1, hpeq, hsub⟩ := hcl
      rw [hrunning] at hrun1 hA
      simp at hrun1
      obtain ⟨ht, hrs⟩ := hrun1
      refine ⟨?_, p, hp, ?_, ?_⟩
      · simp [hrs] at hA ⊢
        omega
      · simp [hrs]
      · rw [hpeq, ackCandidates_append]
        exact hsub.trans (List.sublist_append_left _ _)
  | sendOk id hph hsend =>
      rw [hph] at hcl
      obtain ⟨hrun0, hsub⟩ := hcl
      exact ⟨hA, p, hp, hrun0, hsub⟩
  | sendFail id hph hsend =>
      rw [hph] at hcl
      obtain ⟨hrun0, hsub⟩ := hcl
      exact ⟨hA, p, hp, hrun0,
        (List.sublist_append_left s.acks [id]).trans hsub⟩
  | readClose rest hph hin =>
      rw [hph] at hcl
      obtain ⟨hrun0, hsub⟩ := hcl
      refine ⟨hA, p ++ [Frame.close], by simp [hp, hin], hrun0, ?_⟩
      simpa [ackCandidates_append, ackCandidates, ackCandidate] using hsub
  | readOther rest hph hin =>
      rw [hph] at hcl
      obtain ⟨hrun0, hsub⟩ := hcl
      refine ⟨hA, p ++ [Frame.otherKind], by simp [hp, hin], ?_⟩
      rw [hph]
      refine ⟨hrun0, ?_⟩
      simpa [ackCandidates_append, ackCandidates, ackCandidate] using hsub
  | readErr rest hph hin =>
      rw [hph] at hcl
      obtain ⟨hrun0, hsub⟩ := hcl
      refine ⟨hA, p ++ [Frame.readError], by simp [hp, hin], hrun0, ?_⟩
      simpa [ackCandidates_append, ackCandidates, ackCandidate] using hsub
  | readEnd hph hin =>
      rw [hph] at hcl
      obtain ⟨hrun0, hsub⟩ := hcl
      exact ⟨hA, p, hp, hrun0, hsub⟩

theorem lInv_reach {parse : String → Option TapEvent} {proc : TapEvent → Bool}
    {send : String → Bool} {avail0 : Nat} {msgs : List Frame} {s : LState}
    (h : LReach parse proc send avail0 msgs s) :
    lInv parse proc msgs avail0 s := by
  induction h with
  | init => exact lInv_init parse proc msgs avail0
  | step _ hs ih => exact lInv_step hs ih

/-! ## Claim theorems -/

/-- C1: for every configured concurrency limit `n ≥ 1`, at no reachable
point of one connection's dispatch loop are more than `n` handler
invocations in flight; moreover permits are conserved — every permit is
either available in the semaphore, held by exactly one in-flight handler
task (which releases it exactly once, on completion, regardless of
outcome), or held by the dispatcher between acquiring it and reading the
next frame. -/
theorem c1_dispatcher_concurrency_bound (parse : String → Option Ev)
    (handlerOk : String → Bool) (n : Nat) (frames : List Frame) (s : DState)
    (_hn : 1 ≤ n) (h : DReach parse handlerOk n frames s) :
    s.running.length ≤ n ∧
    s.avail + s.running.length + readingHeld s.phase = n := by
  obtain ⟨h1, h2, h3⟩ := dInv_reach h
  exact ⟨by omega, h1⟩

theorem c1_dispatcher_concurrency_bound_witness :
    (initState 1 []).running.length ≤ 1 ∧
    (initState 1 []).avail + (initState 1 []).running.length +
      readingHeld (initState 1 []).phase = 1 :=
  c1_dispatcher_concurrency_bound (fun _ => none) (fun _ => true) 1 [] _
    (by decide) DReach.init

/-- C4: whenever the dispatch loop has ended (the dispatcher reached the
`returned` phase, via close frame, read error or stream end), no handler
task is still running and every task ever spawned has completed — the
`join_next` drain loop at the end of `handler` runs before returning. -/
theorem c4_dispatcher_drains (parse : String → Option Ev)
    (handlerOk : String → Bool) (n : Nat) (frames : List Frame) (s : DState)
    (h : DReach parse handlerOk n frames s) (hret : s.phase = .returned) :
    s.running = [] ∧ s.spawned = s.completed := by
  have hi := dInv_reach h
  have hr := hi.2.2 hret
  refine ⟨hr, ?_⟩
  have h2 := hi.2.1
  rw [hr] at h2
  simpa using h2

theorem c4_dispatcher_drains_witness :
    ({ avail := 1, running := [], inbox := [], acks := [], wAlive := true,
       spawned := 0, completed := 0, phase := .returned } : DState).running = [] ∧
    ({ avail := 1, running := [], inbox := [], acks := [], wAlive := true,
       spawned := 0, completed := 0, phase := .returned } : DState).spawned =
    ({ avail := 1, running := [], inbox := [], acks := [], wAlive := true,
       spawned := 0, completed := 0, phase := .returned } : DState).completed :=
  c4_dispatcher_drains (fun _ => none) (fun _ => true) 1 [] _
    (DReach.step
      (DReach.step
        (DReach.step DReach.init (DStep.acquire (initState 1 []) 0 rfl rfl))
        (DStep.readEnd _ rfl rfl))
      (DStep.drainDone _ rfl rfl))
    rfl

/-- C5: the handshake status check accepts (and `connect` goes on to
return a connection handle) exactly for status 101 or a 2xx status; any
other status makes `connect` return the handshake-failure error carrying
the response, and no handle is produced. -/
theorem c5_handshake_status (status : Nat) :
    (connectResponseCheck status = .handle ↔
      status = 101 ∨ (200 ≤ status ∧ status < 300)) ∧
    (connectResponseCheck status ≠ .handle →
      connectResponseCheck status = .httpResponseFailure status) := by
  by_cases h101 : status = 101
  · subst h101
    exact ⟨by decide, by decide⟩
  · by_cases h2xx : 200 ≤ status ∧ status < 300
    · have hcheck : connectResponseCheck status = .handle := by
        simp [connectResponseCheck, statusIsSuccess, h2xx.1, h2xx.2]
      exact ⟨⟨fun _ => Or.inr h2xx, fun _ => hcheck⟩, fun hne => absurd hcheck hne⟩
    · have hcheck : connectResponseCheck status = .httpResponseFailure status := by
        unfold connectResponseCheck
        split
        · rfl
        · rename_i hcond
          exfalso
          simp [statusIsSuccess, h101] at hcond
          exact h2xx hcond
      refine ⟨⟨fun h => ?_, fun hor =>
        (hor.elim (fun h => absurd h h101) (fun h => absurd h h2xx))⟩,
        fun _ => hcheck⟩
      rw [hcheck] at h
      exact absurd h (by simp)

theorem c5_handshake_status_witness :
    ((connectResponseCheck 418 = .handle ↔
       418 = 101 ∨ (200 ≤ 418 ∧ 418 < 300)) ∧
     (connectResponseCheck 418 ≠ .handle →
       connectResponseCheck 418 = .httpResponseFailure 418)) ∧
    ((connectResponseCheck 204 = .handle ↔
       204 = 101 ∨ (200 ≤ 204 ∧ 204 < 300)) ∧
     (connectResponseCheck 204 ≠ .handle →
       connectResponseCheck 204 = .httpResponseFailure 204)) :=
  ⟨c5_handshake_status 418, c5_handshake_status 204⟩

/-- C6: scheme handling of the channel: `http` base addresses connect to
`ws`, `https` to `wss`, `ws`/`wss` stay unchanged, any other scheme is
rejected by `ChannelBuilder::build` with the invalid-scheme error before
any connection is attempted, and every successful rewrite forces the
path to the fixed `/channel` endpoint. -/
theorem c6_scheme_rewrite (encodeAuth : String → Option String)
    (b : ChannelBuilderM) :
    (schemeSupported b.base_url.scheme = false →
      channelBuild encodeAuth b = .error (.invalidUrlScheme b.base_url.scheme)) ∧
    (b.base_url.scheme = "http" →
      websocketUrl b.base_url = some ⟨"ws", "/channel"⟩) ∧
    (b.base_url.scheme = "https" →
      websocketUrl b.base_url = some ⟨"wss", "/channel"⟩) ∧
    ((b.base_url.scheme = "ws" ∨ b.base_url.scheme = "wss") →
      websocketUrl b.base_url = some ⟨b.base_url.scheme, "/channel"⟩) := by
  obtain ⟨⟨sch, pa⟩, pw, mc⟩ := b
  refine ⟨fun h => ?_, fun h => ?_, fun h => ?_, fun h => ?_⟩
  · simp [channelBuild, h]
  · subst h; rfl
  · subst h; rfl
  · rcases h with h | h <;> subst h <;> rfl

theorem c6_scheme_rewrite_witness :
    channelBuild (fun _ => none) (channelBuilderNew ⟨"ftp", "/x"⟩) =
      .error (.invalidUrlScheme "ftp") ∧
    websocketUrl ⟨"http", "/x"⟩ = some ⟨"ws", "/channel"⟩ ∧
    websocketUrl ⟨"https", "/x"⟩ = some ⟨"wss", "/channel"⟩ ∧
    websocketUrl ⟨"wss", "/x"⟩ = some ⟨"wss", "/channel"⟩ :=
  ⟨(c6_scheme_rewrite (fun _ => none) (channelBuilderNew ⟨"ftp", "/x"⟩)).1
     (by decide),
   (c6_scheme_rewrite (fun _ => none) (channelBuilderNew ⟨"http", "/x"⟩)).2.1 rfl,
   (c6_scheme_rewrite (fun _ => none) (channelBuilderNew ⟨"https", "/x"⟩)).2.2.1 rfl,
   (c6_scheme_rewrite (fun _ => none) (channelBuilderNew ⟨"wss", "/x"⟩)).2.2.2
     (Or.inr rfl)⟩

/-- C7: the ack writer's failure handling is asymmetric: an identifier
whose ack message fails to serialize is skipped (dropped) and the writer
continues with the rest of the queue, while the first transport send
failure ends the writer loop, so no identifier queued behind it is ever
sent on that connection. -/
theorem c7_writer_asymmetry (ser : Nat → Option String) (send : String → Bool)
    (id : Nat) (rest : List Nat) :
    (ser id = none → writerRun ser send (id :: rest) = writerRun ser send rest) ∧
    (∀ json, ser id = some json → send json = false →
      writerRun ser send (id :: rest) = []) := by
  constructor
  · intro h
    simp [writerRun, h]
  · intro json h hsend
    simp [writerRun, h, hsend]

theorem c7_writer_asymmetry_witness :
    writerRun (fun _ => none) (fun _ => true) [1, 2] =
      writerRun (fun _ => none) (fun _ => true) [2] ∧
    writerRun ackSerialize (fun _ => false) [3, 4] = [] :=
  ⟨(c7_writer_asymmetry (fun _ => none) (fun _ => true) 1 [2]).1 rfl,
   (c7_writer_asymmetry ackSerialize (fun _ => false) 3 [4]).2 (ackJson 3) rfl rfl⟩

/-- C10: the ack queue is an unbounded channel: a handler task's
submission is a total, immediate operation — it appends the id whenever
the writer's receiver is alive (whatever the queue already contains, so
it never blocks the task) and fails only once the writer has terminated
and dropped the receiver; in either case the rest of the task's effect is
identical — the task completes and its permit is released, and the
dispatcher loop is unaffected. -/
theorem c10_unbounded_ack_queue (parse : String → Option Ev)
    (handlerOk : String → Bool) (s : DState) (p : String) :
    ((finishTask parse handlerOk s p).avail = s.avail + 1 ∧
     (finishTask parse handlerOk s p).running = s.running.erase p ∧
     (finishTask parse handlerOk s p).completed = s.completed + 1 ∧
     (finishTask parse handlerOk s p).phase = s.phase) ∧
    (s.wAlive = true → ∀ id, handlerTaskAck parse handlerOk p = some id →
      (finishTask parse handlerOk s p).acks = s.acks ++ [id]) ∧
    (s.wAlive = false → (finishTask parse handlerOk s p).acks = s.acks) := by
  refine ⟨⟨rfl, rfl, rfl, rfl⟩, ?_, ?_⟩
  · intro hw id hid
    simp [finishTask, hid, hw]
  · intro hw
    cases h : handlerTaskAck parse handlerOk p <;> simp [finishTask, h, hw]

theorem c10_unbounded_ack_queue_witness :
    (finishTask (fun _ => some ⟨5, "d"⟩) (fun _ => true)
      { avail := 0, running := ["p"], inbox := [], acks := [9],
        wAlive := true, spawned := 1, completed := 0, phase := .looping }
      "p").acks = [9] ++ [5] :=
  (c10_unbounded_ack_queue (fun _ => some ⟨5, "d"⟩) (fun _ => true)
    { avail := 0, running := ["p"], inbox := [], acks := [9],
      wAlive := true, spawned := 1, completed := 0, phase := .looping }
    "p").2.1 rfl 5 rfl

/-! ## C2: which acknowledgments reach the wire -/

theorem writerRun_mem {ser : Nat → Option String} {send : String → Bool}
    {ids : List Nat} {x : Nat} {json : String}
    (h : (x, json) ∈ writerRun ser send ids) :
    ser x = some json ∧ x ∈ ids := by
  induction ids with
  | nil => simp [writerRun] at h
  | cons id rest ih =>
      cases hser : ser id with
      | none =>
          simp only [writerRun, hser] at h
          obtain ⟨h1, h2⟩ := ih h
          exact ⟨h1, List.mem_cons_of_mem _ h2⟩
      | some j =>
          simp only [writerRun, hser] at h
          by_cases hsend : send j = true
          · rw [if_pos hsend] at h
            rcases List.mem_cons.mp h with heq | hmem
            · rw [Prod.mk.injEq] at heq
              obtain ⟨hx, hj⟩ := heq
              subst hx
              subst hj
              exact ⟨hser, List.mem_cons_self _ _⟩
            · obtain ⟨h1, h2⟩ := ih hmem
              exact ⟨h1, List.mem_cons_of_mem _ h2⟩
          · rw [if_neg hsend] at h
            simp at h

theorem writerRun_all_sent (send : String → Bool) (hsend : ∀ t, send t = true)
    (ids : List Nat) :
    writerRun ackSerialize send ids = ids.map (fun i => (i, ackJson i)) := by
  induction ids with
  | nil => rfl
  | cons id rest ih => simp [writerRun, ackSerialize, hsend, ih]

theorem handlerTaskAck_eq_some {parse : String → Option Ev}
    {handlerOk : String → Bool} {p : String} {x : Nat} :
    handlerTaskAck parse handlerOk p = some x ↔
      ∃ e, parse p = some e ∧ e.id = x ∧ handlerOk e.data = true := by
  unfold handlerTaskAck
  cases h : parse p with
  | none => simp
  | some e =>
      by_cases hok : handlerOk e.data = true <;> simp [hok]

/-- C2 counterexample: two events (ids 1 and 2) both handled
successfully, but the transport send of the first ack frame fails, so
the writer terminates and no ack frame at all reaches the wire — in
particular the handler for event 2 returned success yet the frame
acknowledging id 2 is never sent, refuting the claimed "if and only if". -/
theorem c2_counterexample :
    handlerTaskAck
      (fun t => if t = "evt1" then some ⟨1, "d1"⟩
                else if t = "evt2" then some ⟨2, "d2"⟩ else none)
      (fun _ => true) "evt2" = some 2 ∧
    wireAcks
      (fun t => if t = "evt1" then some ⟨1, "d1"⟩
                else if t = "evt2" then some ⟨2, "d2"⟩ else none)
      (fun _ => true) (fun _ => false)
      [Frame.text "evt1", Frame.text "evt2"] = [] := by
  exact ⟨rfl, rfl⟩

/-- C2 (amended): every ack frame on the wire is `ackJson x` for an id
`x` that was enqueued, i.e. for an event whose payload parsed and whose
handler returned success — so a failed handler's event is never
acknowledged; conversely, when every transport send succeeds (the writer
never dies), an ack frame for `x` is on the wire exactly when some
dispatched event with id `x` was handled successfully. -/
theorem c2_ack_soundness (parse : String → Option Ev)
    (handlerOk : String → Bool) (send : String → Bool) (frames : List Frame)
    (x : Nat) (json : String) :
    ((x, json) ∈ wireAcks parse handlerOk send frames →
      json = ackJson x ∧ x ∈ enqueuedAcks parse handlerOk frames) ∧
    (x ∈ enqueuedAcks parse handlerOk frames ↔
      ∃ p ∈ dispatchedPayloads frames, ∃ e, parse p = some e ∧ e.id = x ∧
        handlerOk e.data = true) ∧
    ((∀ t, send t = true) →
      ((x, ackJson x) ∈ wireAcks parse handlerOk send frames ↔
        x ∈ enqueuedAcks parse handlerOk frames)) := by
  refine ⟨?_, ?_, ?_⟩
  · intro h
    obtain ⟨h1, h2⟩ := writerRun_mem h
    rw [ackSerialize] at h1
    exact ⟨(Option.some.injEq _ _).mp h1.symm, h2⟩
  · unfold enqueuedAcks
    rw [List.mem_filterMap]
    constructor
    · rintro ⟨p, hp, hpx⟩
      exact ⟨p, hp, handlerTaskAck_eq_some.mp hpx⟩
    · rintro ⟨p, hp, he⟩
      exact ⟨p, hp, handlerTaskAck_eq_some.mpr he⟩
  · intro hsend
    unfold wireAcks
    rw [writerRun_all_sent send hsend]
    rw [List.mem_map]
    constructor
    · rintro ⟨i, hi, heq⟩
      rw [Prod.mk.injEq] at heq
      rw [← heq.1]
      exact hi
    · intro h
      exact ⟨x, h, rfl⟩

theorem c2_ack_soundness_witness :
    ((3, ackJson 3) ∈ wireAcks (fun _ => some ⟨3, "d"⟩) (fun _ => true)
        (fun _ => true) [Frame.text "e"] →
      ackJson 3 = ackJson 3 ∧
        3 ∈ enqueuedAcks (fun _ => some ⟨3, "d"⟩) (fun _ => true)
          [Frame.text "e"]) ∧
    (3 ∈ enqueuedAcks (fun _ => some ⟨3, "d"⟩) (fun _ => true)
        [Frame.text "e"] ↔
      ∃ p ∈ dispatchedPayloads [Frame.text "e"],
        ∃ e, (fun (_ : String) => some (⟨3, "d"⟩ : Ev)) p = some e ∧
          e.id = 3 ∧ (fun (_ : String) => true) e.data = true) ∧
    ((∀ t, (fun (_ : String) => true) t = true) →
      ((3, ackJson 3) ∈ wireAcks (fun _ => some ⟨3, "d"⟩) (fun _ => true)
          (fun _ => true) [Frame.text "e"] ↔
        3 ∈ enqueuedAcks (fun _ => some ⟨3, "d"⟩) (fun _ => true)
          [Frame.text "e"])) :=
  c2_ack_soundness (fun _ => some ⟨3, "d"⟩) (fun _ => true) (fun _ => true)
    [Frame.text "e"] 3 (ackJson 3)

/-! ## C3: malformed event payloads -/

/-- C3 counterexample: in the lesgif-ingest worker a text frame whose
payload does not parse makes the spawned task's `unwrap` panic; the
`JoinError` propagates through `.await?` and ends `consume_tap`, so the
following well-formed frame (which alone would be processed and
acknowledged with id 7) is never handled — the dispatcher loop does not
continue past a malformed frame in this ingestion worker. -/
theorem c3_counterexample :
    consumeTap (fun t => if t = "good" then some ⟨7, "g"⟩ else none)
      (fun _ => true) (fun _ => true)
      [Frame.text "bad", Frame.text "good"] = ([], .taskPanicked "bad") ∧
    consumeTap (fun t => if t = "good" then some ⟨7, "g"⟩ else none)
      (fun _ => true) (fun _ => true)
      [Frame.text "good"] = ([7], .closed) := by
  exact ⟨rfl, rfl⟩

/-- C3 (amended): an unparsable text payload is never acknowledged and
never reaches the handler in either ingestion worker; in the floodgate
channel dispatcher (used by gifdex-ingest) it is dropped and the loop
continues with the remaining frames unchanged, whereas in lesgif-ingest
the parse `unwrap` panics the spawned task and the propagated join
error terminates that connection's consume loop with no acks. -/
theorem c3_parse_failure (parse : String → Option Ev)
    (handlerOk handlerOk2 : String → Bool) (p : String) (frames : List Frame)
    (tparse : String → Option TapEvent) (proc : TapEvent → Bool)
    (send : String → Bool) (t : String) (rest : List Frame)
    (hp : parse p = none) (ht : tparse t = none) :
    handlerTaskAck parse handlerOk p = none ∧
    handlerTaskAck parse handlerOk p = handlerTaskAck parse handlerOk2 p ∧
    enqueuedAcks parse handlerOk (Frame.text p :: frames) =
      enqueuedAcks parse handlerOk frames ∧
    consumeTap tparse proc send (Frame.text t :: rest) =
      ([], .taskPanicked t) := by
  have hnone : handlerTaskAck parse handlerOk p = none := by
    simp [handlerTaskAck, hp]
  have hnone2 : handlerTaskAck parse handlerOk2 p = none := by
    simp [handlerTaskAck, hp]
  refine ⟨hnone, hnone.trans hnone2.symm, ?_, ?_⟩
  · simp [enqueuedAcks, dispatchedPayloads, hnone]
  · simp [consumeTap, ht]

theorem c3_parse_failure_witness :
    handlerTaskAck (fun _ => none) (fun _ => true) "x" = none ∧
    handlerTaskAck (fun _ => none) (fun _ => true) "x" =
      handlerTaskAck (fun _ => none) (fun _ => false) "x" ∧
    enqueuedAcks (fun _ => none) (fun _ => true) [Frame.text "x"] =
      enqueuedAcks (fun _ => none) (fun _ => true) [] ∧
    consumeTap (fun _ => none) (fun _ => true) (fun _ => true)
      [Frame.text "y"] = ([], .taskPanicked "y") :=
  c3_parse_failure (fun _ => none) (fun _ => true) (fun _ => false) "x" []
    (fun _ => none) (fun _ => true) (fun _ => true) "y" [] rfl rfl

/-! ## C8: supervisor cooldowns -/

/-- C8 counterexample: the lesgif-ingest supervisor sleeps 5 seconds —
not the claimed 10 — after `consume_tap` returns from a normal close, so
the "second, longer 10-second cooldown after the dispatch loop runs to
completion" does not hold for every ingestion worker. -/
theorem c8_counterexample :
    lesgifCooldownSecs .closed = 5 ∧ lesgifCooldownSecs .closed ≠ 10 := by
  exact ⟨rfl, by decide⟩

/-- C8 (amended): both supervisors loop indefinitely (their iteration
traces are total, one sleep per iteration); the gifdex-ingest supervisor
sleeps 5 seconds after a failed connection attempt and 10 seconds after
the dispatch loop completes, while the lesgif-ingest supervisor sleeps a
fixed 5 seconds after every `consume_tap` invocation, whether it ended
in an error or closed normally. -/
theorem c8_supervisor_cooldowns (gOut : Nat → GifdexIterOutcome)
    (lOut : Nat → TapEnd) (n : Nat) :
    gifdexCooldownSecs .connectFailed = 5 ∧
    gifdexCooldownSecs .dispatchCompleted = 10 ∧
    lesgifCooldownSecs (lOut n) = 5 ∧
    gifdexSupervisorSleeps gOut n = gifdexCooldownSecs (gOut n) ∧
    lesgifSupervisorSleeps lOut n = lesgifCooldownSecs (lOut n) :=
  ⟨rfl, rfl, rfl, rfl, rfl⟩

theorem c8_supervisor_cooldowns_witness :
    gifdexCooldownSecs .connectFailed = 5 ∧
    gifdexCooldownSecs .dispatchCompleted = 10 ∧
    lesgifCooldownSecs .readErrored = 5 ∧
    gifdexSupervisorSleeps (fun _ => .connectFailed) 0 =
      gifdexCooldownSecs .connectFailed ∧
    lesgifSupervisorSleeps (fun _ => .readErrored) 0 =
      lesgifCooldownSecs .readErrored :=
  c8_supervisor_cooldowns (fun _ => .connectFailed) (fun _ => .readErrored) 0

/-! ## C9: the lesgif consumer is sequential -/

/-- C9: in every reachable state of a lesgif-ingest `consume_tap`
invocation (with its 50-permit semaphore), at most one spawned event
task is in flight — each task is joined before the next frame is read —
and the ids acknowledged so far form an order-preserving selection
(sublist) of the arrival-ordered acknowledgeable events of the consumed
prefix of the inbound frames, i.e. acks are sent in exactly the arrival
order of the events they acknowledge. -/
theorem c9_sequential_consumer (parse : String → Option TapEvent)
    (proc : TapEvent → Bool) (send : String → Bool) (msgs : List Frame)
    (s : LState) (h : LReach parse proc send 50 msgs s) :
    s.running.length ≤ 1 ∧
    ∃ consumed rest, msgs = consumed ++ rest ∧
      s.acks.Sublist (ackCandidates parse proc consumed) := by
  obtain ⟨hA, p, hp, hcl⟩ := lInv_reach h
  cases hphase : s.phase with
  | readLoop =>
      rw [hphase] at hcl
      obtain ⟨hrun, hsub⟩ := hcl
      exact ⟨by simp [hrun], p, s.inbox, hp, hsub⟩
  | joining =>
      rw [hphase] at hcl
      obtain ⟨t, p0, hrun, hpeq, hsub⟩ := hcl
      refine ⟨by simp [hrun], p, s.inbox, hp, ?_⟩
      rw [hpeq, ackCandidates_append]
      exact hsub.trans (List.sublist_append_left _ _)
  | sendingAck id =>
      rw [hphase] at hcl
      obtain ⟨hrun, hsub⟩ := hcl
      exact ⟨by simp [hrun], p, s.inbox, hp,
        (List.sublist_append_left s.acks [id]).trans hsub⟩
  | finished r =>
      rw [hphase] at hcl
      obtain ⟨hrun, hsub⟩ := hcl
      exact ⟨by simp [hrun], p, s.inbox, hp, hsub⟩

theorem c9_sequential_consumer_witness :
    (lInitState 50 []).running.length ≤ 1 ∧
    ∃ consumed rest, ([] : List Frame) = consumed ++ rest ∧
      (lInitState 50 []).acks.Sublist
        (ackCandidates (fun _ => none) (fun _ => true) consumed) :=
  c9_sequential_consumer (fun _ => none) (fun _ => true) (fun _ => true) [] _
    LReach.init

end Gifdex
